import Mathlib

/-!
Verification of the molequle shelf-life kinetics engine and stability
classifier against their specification.

The embedded code is:
* `calculate_shelf_life` from `src/app.py` (the Arrhenius shelf-life
  calculator), modelled over exact real arithmetic with `Real.exp`;
* `predict_stability` from `src/stability.py` (the imaginary-frequency
  stability classifier), modelled over rationals (every finite Python float
  value is a rational), and additionally over a `PyFloat` type that carries
  the IEEE special values NaN, plus and minus infinity, with Python's
  comparison semantics, for the claims about non-finite inputs.
-/

namespace Molequle

/-- Gas constant from `src/app.py`: `R = 8.314` J/(mol·K). -/
def R : ℝ := 8.314

/-- Conversion constant from `src/app.py`: `DAY_TO_SECONDS = 86400`. -/
def DAY_TO_SECONDS : ℝ := 86400

/-- Arrhenius rate constant as computed inside `calculate_shelf_life` in
`src/app.py`: `A * np.exp(-Ea * 1000 / (R * T))`, with `Ea` in kJ/mol
(hence the factor 1000 converting to J/mol). -/
noncomputable def rate (Ea A T : ℝ) : ℝ :=
  A * Real.exp (-Ea * 1000 / (R * T))

/-- The function `calculate_shelf_life(Ea, A, T, T_ref=298)` from
`src/app.py` (the source's default `T_ref=298` is made an explicit
argument here):

`k_ref = A * np.exp(-Ea * 1000 / (R * T_ref))`,
`k = A * np.exp(-Ea * 1000 / (R * T))`,
returns `(0.105 / k_ref) * (k_ref / k) * (DAY_TO_SECONDS / 86400)`. -/
noncomputable def calculate_shelf_life (Ea A T T_ref : ℝ) : ℝ :=
  (0.105 / rate Ea A T_ref) * (rate Ea A T_ref / rate Ea A T) *
    (DAY_TO_SECONDS / 86400)

/-- Error raised by a Python float division whose denominator is zero. -/
inductive PyError
  | zeroDivision
deriving DecidableEq

/-- Evaluation of `calculate_shelf_life` from `src/app.py` with Python's
failure behaviour made explicit.  The exponent divisions
`-Ea * 1000 / (R * T_ref)` and `-Ea * 1000 / (R * T)` act on plain Python
floats, so each raises `ZeroDivisionError` when its denominator is zero,
checked in the source's evaluation order (the `k_ref` line first).  The
divisions in the return expression (`0.105 / k_ref` and `k_ref / k`) act
on `np.float64` scalars, because `np.exp` returns numpy scalars: numpy
division by zero does not raise, it yields inf/NaN with a RuntimeWarning,
so no further error case exists.  (When the frequency factor is zero those
quotients are non-finite floats, outside this exact-real embedding, which
then assigns them Lean's conventional division-by-zero value; the claims
below rely on the `.ok` value only for a nonzero frequency factor.)  The
source performs no other check of its parameters. -/
noncomputable def calculate_shelf_lifeChecked (Ea A T T_ref : ℝ) :
    Except PyError ℝ :=
  if R * T_ref = 0 then .error .zeroDivision
  else if R * T = 0 then .error .zeroDivision
  else .ok ((0.105 / rate Ea A T_ref) * (rate Ea A T_ref / rate Ea A T) *
    (DAY_TO_SECONDS / 86400))

/-- Modelled from the spec: the Arrhenius rate of spec section 4.1,
`rate = frequency_factor * exp(-activation_energy_in_joules_per_mole /
(gas_constant * temperature))`, gas constant 8.314 J/(mol·K), activation
energy converted from kJ/mol to J/mol before use. -/
noncomputable def spec_rate (Ea A T : ℝ) : ℝ :=
  A * Real.exp (-(Ea * 1000) / (8.314 * T))

/-- Modelled from the spec: `compute_shelf_life` of spec section 4.1,
`shelf_life(T) = reference_shelf_life_days * (rate(T_ref) / rate(T))`.
Stated only to be compared with the source's `calculate_shelf_life`. -/
noncomputable def compute_shelf_life_spec (Ea A rsl T T_ref : ℝ) : ℝ :=
  rsl * (spec_rate Ea A T_ref / spec_rate Ea A T)

/-- The function `predict_stability(ground_energy, vibrational_freqs)` from
`src/stability.py`:
returns `"Unstable (imaginary frequencies)"` when
`any(freq < 0 for freq in vibrational_freqs)`, else
`"Thermodynamically Stable"`.  Finite float values are embedded as
rationals. -/
def predict_stability (ground_energy : ℚ) (vibrational_freqs : List ℚ) :
    String :=
  if vibrational_freqs.any fun freq => decide (freq < 0) then
    "Unstable (imaginary frequencies)"
  else
    "Thermodynamically Stable"

/-- A Python float value: a finite rational or one of the IEEE special
values NaN, positive infinity, negative infinity. -/
inductive PyFloat
  | finite (q : ℚ)
  | nan
  | inf
  | ninf
deriving DecidableEq

/-- Python's comparison `x < 0` on a float: NaN compares false against
everything, `inf < 0` is false, `-inf < 0` is true. -/
def PyFloat.ltZero : PyFloat → Bool
  | .finite q => decide (q < 0)
  | .nan => false
  | .inf => false
  | .ninf => true

/-- The function `predict_stability` from `src/stability.py` evaluated on
Python float inputs including the IEEE special values: the source performs
no finiteness check, so the generator expression simply applies `< 0` to
each value and no code path can raise. -/
def predict_stabilityPy ( ground_energy : PyFloat)
    (vibrational_freqs : List PyFloat) : String :=
  if vibrational_freqs.any PyFloat.ltZero then
    "Unstable (imaginary frequencies)"
  else
    "Thermodynamically Stable"

/-! Helper lemmas shared by several claims. -/

theorem rate_pos (Ea A T : ℝ) (hA : 0 < A) : 0 < rate Ea A T :=
  mul_pos hA (Real.exp_pos _)

theorem rate_ne_zero {Ea A T : ℝ} (hA : A ≠ 0) : rate Ea A T ≠ 0 :=
  mul_ne_zero hA (Real.exp_ne_zero _)

/-- Algebraic collapse of the source formula: the reference rate constant
cancels, leaving `0.105 / k`. -/
theorem calculate_shelf_life_eq (Ea A T T_ref : ℝ) (hA : A ≠ 0) :
    calculate_shelf_life Ea A T T_ref = 0.105 / rate Ea A T := by
  have href : rate Ea A T_ref ≠ 0 := rate_ne_zero hA
  have hk : rate Ea A T ≠ 0 := rate_ne_zero hA
  unfold calculate_shelf_life DAY_TO_SECONDS
  field_simp

theorem rate_at_zero_Ea (A T : ℝ) : rate 0 A T = A := by
  simp [rate]

/-- The rate constant strictly increases with temperature when the
activation energy is positive. -/
theorem rate_strictMono_temp (Ea A T1 T2 : ℝ) (hEa : 0 < Ea) (hA : 0 < A)
    (hT1 : 0 < T1) (h12 : T1 < T2) : rate Ea A T1 < rate Ea A T2 := by
  have hR : (0 : ℝ) < R := by norm_num [R]
  have h1 : 0 < R * T1 := mul_pos hR hT1
  have h2 : 0 < R * T2 := mul_pos hR (hT1.trans h12)
  unfold rate
  refine mul_lt_mul_of_pos_left (Real.exp_lt_exp.mpr ?_) hA
  rw [div_lt_div_iff₀ h1 h2]
  have key : Ea * 1000 * (R * T1) < Ea * 1000 * (R * T2) :=
    mul_lt_mul_of_pos_left (mul_lt_mul_of_pos_left h12 hR) (by positivity)
  linarith

/-- The rate constant strictly decreases as the activation energy grows,
at any positive temperature. -/
theorem rate_strictAnti_Ea (Ea1 Ea2 A T : ℝ) (hA : 0 < A) (hT : 0 < T)
    (h : Ea1 < Ea2) : rate Ea2 A T < rate Ea1 A T := by
  have hR : (0 : ℝ) < R := by norm_num [R]
  have hRT : 0 < R * T := mul_pos hR hT
  unfold rate
  refine mul_lt_mul_of_pos_left (Real.exp_lt_exp.mpr ?_) hA
  rw [div_lt_div_iff₀ hRT hRT]
  have hnum : -Ea2 * 1000 < -Ea1 * 1000 := by linarith
  exact mul_lt_mul_of_pos_right hnum hRT

/-! Claim theorems. -/

/-- C1: the claim says that at target temperature equal to the reference
temperature the calculator returns exactly the reference shelf life.  The
source function has no reference-shelf-life parameter at all: evaluated at
activation energy 0, frequency factor 1, target and reference temperature
both 298 K, it returns `0.105`, not the reference shelf life of 1168 days
recorded for that scenario (3.2 years), even though its own docstring
promises a result in days with reference adjustment. -/
theorem calculate_shelf_life_at_ref_temp_eval :
    calculate_shelf_life 0 1 298 298 = 0.105 ∧ (0.105 : ℝ) ≠ 1168 := by
  constructor
  · rw [calculate_shelf_life_eq 0 1 298 298 one_ne_zero, rate_at_zero_Ea]
    norm_num
  · norm_num

/-- C2: the claim says the result equals
`reference_shelf_life_days * (rate(T_ref) / rate(T))`.  At activation
energy 0, frequency factor 2, target temperature 500 K, reference
temperature 250 K and reference shelf life 7 days, the spec formula gives
7 while the source returns `0.105 / k = 0.0525`: the source ignores the
reference shelf life entirely. -/
theorem calculate_shelf_life_vs_spec_formula_eval :
    calculate_shelf_life 0 2 500 250 = 0.0525 ∧
    compute_shelf_life_spec 0 2 7 500 250 = 7 ∧ (0.0525 : ℝ) ≠ 7 := by
  refine ⟨?_, ?_, by norm_num⟩
  · rw [calculate_shelf_life_eq 0 2 500 250 two_ne_zero, rate_at_zero_Ea]
    norm_num
  · unfold compute_shelf_life_spec spec_rate
    norm_num

/-- C3: the classifier returns the unstable verdict exactly when some
frequency is strictly negative, returns the stable verdict otherwise, and
in particular classifies the empty frequency list as stable. -/
theorem predict_stability_unstable_iff (E : ℚ) (fs : List ℚ) :
    (predict_stability E fs = "Unstable (imaginary frequencies)" ↔
      ∃ f ∈ fs, f < 0) ∧
    (predict_stability E fs = "Thermodynamically Stable" ↔
      ¬ ∃ f ∈ fs, f < 0) ∧
    predict_stability E [] = "Thermodynamically Stable" := by
  have hne : ("Unstable (imaginary frequencies)" : String) ≠
      "Thermodynamically Stable" := by decide
  have hany : (fs.any fun freq => decide (freq < 0)) = true ↔
      ∃ f ∈ fs, f < 0 := by
    simp [List.any_eq_true]
  refine ⟨?_, ?_, by simp [predict_stability]⟩
  · unfold predict_stability
    by_cases h : ∃ f ∈ fs, f < 0
    · simp [hany.mpr h, h]
    · simp [(not_iff_not.mpr hany).mpr h, h, hne]
  · unfold predict_stability
    by_cases h : ∃ f ∈ fs, f < 0
    · simp [hany.mpr h, h, hne]
    · simp [(not_iff_not.mpr hany).mpr h, h]

/-- C3 witness: the theorem applied to the spec's own examples, a list with
a negative frequency and the empty list. -/
theorem predict_stability_unstable_iff_witness :
    predict_stability 0 [-50, 100, 200] = "Unstable (imaginary frequencies)" ∧
    predict_stability 0 [] = "Thermodynamically Stable" :=
  ⟨(predict_stability_unstable_iff 0 [-50, 100, 200]).1.mpr
      ⟨-50, by norm_num⟩,
    (predict_stability_unstable_iff 0 []).2.2⟩

/-- C8: the verdict does not depend on the ground-state energy argument,
which the source never reads. -/
theorem predict_stability_ignores_energy (E1 E2 : ℚ) (fs : List ℚ) :
    predict_stability E1 fs = predict_stability E2 fs := rfl

/-- C4 counterexample: at temperature -5 K (with activation energy 0,
frequency factor 1, reference temperature 298 K) the calculator returns
the value `0.105` instead of failing: the source validates nothing, so a
non-positive temperature does not produce an error. -/
theorem calculate_shelf_life_negative_temp_returns_value :
    calculate_shelf_lifeChecked 0 1 (-5) 298 = Except.ok 0.105 := by
  unfold calculate_shelf_lifeChecked
  rw [if_neg (by norm_num [R] : ¬R * (298 : ℝ) = 0),
    if_neg (by norm_num [R] : ¬R * (-5 : ℝ) = 0)]
  rw [rate_at_zero_Ea, rate_at_zero_Ea]
  norm_num [DAY_TO_SECONDS]

/-- C4 amended: the calculator performs no parameter validation and never
raises an InvalidParameter error; the reference shelf life is not an input
at all.  For any inputs with nonzero target and reference temperatures —
negative temperatures and non-positive frequency factors included — it
returns a value rather than failing; its only failures are Python
ZeroDivisionErrors from the pure-float exponent divisions, raised exactly
when the target temperature or the reference temperature is zero.  (A zero
frequency factor does not raise either: the return-line divisions are
numpy-scalar operations that produce non-finite floats with only a
RuntimeWarning.) -/
theorem calculate_shelf_life_no_validation (Ea A T T_ref : ℝ)
    (hT : T ≠ 0) (hTr : T_ref ≠ 0) :
    calculate_shelf_lifeChecked Ea A T T_ref =
      Except.ok (calculate_shelf_life Ea A T T_ref) ∧
    calculate_shelf_lifeChecked Ea A 0 T_ref =
      Except.error PyError.zeroDivision ∧
    calculate_shelf_lifeChecked Ea A T 0 =
      Except.error PyError.zeroDivision := by
  have hR : (R : ℝ) ≠ 0 := by norm_num [R]
  refine ⟨?_, ?_, ?_⟩
  · unfold calculate_shelf_lifeChecked calculate_shelf_life
    rw [if_neg (mul_ne_zero hR hTr), if_neg (mul_ne_zero hR hT)]
  · unfold calculate_shelf_lifeChecked
    rw [if_neg (mul_ne_zero hR hTr), if_pos (mul_zero R)]
  · unfold calculate_shelf_lifeChecked
    rw [if_pos (mul_zero R)]

/-- C4 witness: the amended theorem applied at activation energy 0,
frequency factor 1, target temperature -5 K, reference temperature
298 K. -/
theorem calculate_shelf_life_no_validation_witness :
    ((-5 : ℝ) ≠ 0 ∧ (298 : ℝ) ≠ 0) ∧
    (calculate_shelf_lifeChecked 0 1 (-5) 298 =
        Except.ok (calculate_shelf_life 0 1 (-5) 298) ∧
      calculate_shelf_lifeChecked 0 1 0 298 =
        Except.error PyError.zeroDivision ∧
      calculate_shelf_lifeChecked 0 1 (-5) 0 =
        Except.error PyError.zeroDivision) :=
  ⟨⟨by norm_num, by norm_num⟩,
    calculate_shelf_life_no_validation 0 1 (-5) 298 (by norm_num)
      (by norm_num)⟩

/-- C5 counterexample: on a frequency list containing NaN the classifier
does not fail: Python's comparison `nan < 0` is false, so the source
returns the stable verdict on the list `[nan]`. -/
theorem predict_stability_nan_returns_verdict :
    predict_stabilityPy (.finite 0) [PyFloat.nan] =
      "Thermodynamically Stable" := rfl

/-- C5 amended: the classifier never fails on non-finite values: it always
returns one of the two verdict strings; a NaN or positive-infinity
frequency is silently ignored (it does not change the verdict computed
from the remaining frequencies), a negative-infinity frequency counts as
negative and forces the unstable verdict, and the empty sequence yields
the stable verdict. -/
theorem predict_stability_no_finiteness_check (e : PyFloat)
    (fs : List PyFloat) :
    (predict_stabilityPy e fs = "Unstable (imaginary frequencies)" ∨
      predict_stabilityPy e fs = "Thermodynamically Stable") ∧
    predict_stabilityPy e (PyFloat.nan :: fs) = predict_stabilityPy e fs ∧
    predict_stabilityPy e (PyFloat.inf :: fs) = predict_stabilityPy e fs ∧
    predict_stabilityPy e (PyFloat.ninf :: fs) =
      "Unstable (imaginary frequencies)" ∧
    predict_stabilityPy e [] = "Thermodynamically Stable" := by
  unfold predict_stabilityPy
  refine ⟨?_, ?_, ?_, ?_, rfl⟩
  · by_cases h : fs.any PyFloat.ltZero = true
    · exact Or.inl (by rw [if_pos h])
    · exact Or.inr (by rw [if_neg h])
  · simp [PyFloat.ltZero]
  · simp [PyFloat.ltZero]
  · simp [PyFloat.ltZero]

/-- C6: for positive activation energy, a fixed positive frequency factor
and reference temperature, the computed shelf life strictly decreases as
the target temperature increases. -/
theorem calculate_shelf_life_strictAnti_temp (Ea A T_ref T1 T2 : ℝ)
    (hEa : 0 < Ea) (hA : 0 < A) (hTr : 0 < T_ref) (hT1 : 0 < T1)
    (h12 : T1 < T2) :
    calculate_shelf_life Ea A T2 T_ref < calculate_shelf_life Ea A T1 T_ref := by
  rw [calculate_shelf_life_eq Ea A T2 T_ref (ne_of_gt hA),
    calculate_shelf_life_eq Ea A T1 T_ref (ne_of_gt hA)]
  exact div_lt_div_of_pos_left (by norm_num) (rate_pos Ea A T1 hA)
    (rate_strictMono_temp Ea A T1 T2 hEa hA hT1 h12)

/-- C6 witness: the theorem applied at activation energy 1, frequency
factor 1, reference temperature 298 K, target temperatures 1 K and 2 K. -/
theorem calculate_shelf_life_strictAnti_temp_witness :
    ((0 : ℝ) < 1 ∧ (0 : ℝ) < 298 ∧ (1 : ℝ) < 2) ∧
    calculate_shelf_life 1 1 2 298 < calculate_shelf_life 1 1 1 298 :=
  ⟨⟨by norm_num, by norm_num, by norm_num⟩,
    calculate_shelf_life_strictAnti_temp 1 1 298 1 2 (by norm_num)
      (by norm_num) (by norm_num) (by norm_num) (by norm_num)⟩

/-- C7: for a fixed positive frequency factor and positive target and
reference temperatures, the computed shelf life strictly increases with
the activation energy. -/
theorem calculate_shelf_life_strictMono_Ea (Ea1 Ea2 A T T_ref : ℝ)
    (hA : 0 < A) (hT : 0 < T) (hTr : 0 < T_ref) (h : Ea1 < Ea2) :
    calculate_shelf_life Ea1 A T T_ref < calculate_shelf_life Ea2 A T T_ref := by
  rw [calculate_shelf_life_eq Ea1 A T T_ref (ne_of_gt hA),
    calculate_shelf_life_eq Ea2 A T T_ref (ne_of_gt hA)]
  exact div_lt_div_of_pos_left (by norm_num) (rate_pos Ea2 A T hA)
    (rate_strictAnti_Ea Ea1 Ea2 A T hA hT h)

/-- C7 witness: the theorem applied at activation energies 0 and 1,
frequency factor 1, target temperature 1 K, reference temperature 298 K. -/
theorem calculate_shelf_life_strictMono_Ea_witness :
    ((0 : ℝ) < 1 ∧ (0 : ℝ) < 298 ∧ (0 : ℝ) < 1) ∧
    calculate_shelf_life 0 1 1 298 < calculate_shelf_life 1 1 1 298 :=
  ⟨⟨by norm_num, by norm_num, by norm_num⟩,
    calculate_shelf_life_strictMono_Ea 0 1 1 1 298 (by norm_num)
      (by norm_num) (by norm_num) (by norm_num)⟩

/-- C9: for positive inputs the calculator returns a (finite) strictly
positive real number. -/
theorem calculate_shelf_life_pos (Ea A T T_ref : ℝ) (hEa : 0 < Ea)
    (hA : 0 < A) (hT : 0 < T) (hTr : 0 < T_ref) :
    0 < calculate_shelf_life Ea A T T_ref := by
  rw [calculate_shelf_life_eq Ea A T T_ref (ne_of_gt hA)]
  exact div_pos (by norm_num) (rate_pos Ea A T hA)

/-- C9 witness: the theorem applied at activation energy 1, frequency
factor 1, target temperature 1 K, reference temperature 1 K. -/
theorem calculate_shelf_life_pos_witness :
    ((0 : ℝ) < 1) ∧ 0 < calculate_shelf_life 1 1 1 1 :=
  ⟨by norm_num,
    calculate_shelf_life_pos 1 1 1 1 (by norm_num) (by norm_num)
      (by norm_num) (by norm_num)⟩

/-- C10: the result is independent of the reference temperature: the
reference rate constant cancels out of
`(0.105 / k_ref) * (k_ref / k)`. -/
theorem calculate_shelf_life_ref_temp_irrelevant (Ea A T Tr1 Tr2 : ℝ)
    (hA : 0 < A) (hT : 0 < T) (h1 : 0 < Tr1) (h2 : 0 < Tr2) :
    calculate_shelf_life Ea A T Tr1 = calculate_shelf_life Ea A T Tr2 := by
  rw [calculate_shelf_life_eq Ea A T Tr1 (ne_of_gt hA),
    calculate_shelf_life_eq Ea A T Tr2 (ne_of_gt hA)]

/-- C10 witness: the theorem applied at activation energy 1, frequency
factor 1, target temperature 298 K, reference temperatures 100 K and
200 K. -/
theorem calculate_shelf_life_ref_temp_irrelevant_witness :
    ((0 : ℝ) < 1 ∧ (0 : ℝ) < 298 ∧ (0 : ℝ) < 100 ∧ (0 : ℝ) < 200) ∧
    calculate_shelf_life 1 1 298 100 = calculate_shelf_life 1 1 298 200 :=
  ⟨⟨by norm_num, by norm_num, by norm_num, by norm_num⟩,
    calculate_shelf_life_ref_temp_irrelevant 1 1 298 100 200 (by norm_num)
      (by norm_num) (by norm_num) (by norm_num)⟩

end Molequle
